import Mathlib

/-!
Shallow embedding of the windcdf-qc check-execution subsystem
(src/windcdf/models, src/windcdf/qc) and proofs about its behavior.

Modelling conventions:
* A sample value is `Option ℚ`; `none` models the IEEE NaN used by the
  source to mark missing samples (every NaN test in the source is an
  explicit `np.isnan` guard or a comparison that is false for NaN).
* A timestamp is a rational number of seconds; the ISO-8601 rendering of a
  datetime is a bijection onto its string, so dictionaries carry the
  instant itself.
* Python float arithmetic is modelled by exact rational arithmetic.
* The numeric text inserted into flag messages by f-strings is modelled
  with `toString` on the rational involved.
-/

namespace Windcdf

/-- Severity levels, from `FlagSeverity(IntEnum)` in models/flags.py. -/
inductive FlagSeverity where
  | GOOD
  | SUSPECT
  | BAD
  | MISSING
deriving DecidableEq, Repr

/-- `FlagSeverity.name` of the Python enum member. -/
def FlagSeverity.pyName : FlagSeverity → String
  | .GOOD => "GOOD"
  | .SUSPECT => "SUSPECT"
  | .BAD => "BAD"
  | .MISSING => "MISSING"

/-- `FlagSeverity[name]` lookup; `none` models the KeyError raised on an
unknown name. -/
def FlagSeverity.ofName : String → Option FlagSeverity
  | "GOOD" => some .GOOD
  | "SUSPECT" => some .SUSPECT
  | "BAD" => some .BAD
  | "MISSING" => some .MISSING
  | _ => none

/-- Reasons, from `FlagReason(IntFlag)` in models/flags.py.  The source type
is a bitmask; every value the program constructs is one of the eight named
members, which are the values modelled here. -/
inductive FlagReason where
  | NONE
  | RANGE_CHECK
  | SPIKE
  | STUCK_SENSOR
  | GAP
  | RAMP_RATE
  | DIRECTION_WRAP
  | MANUAL
deriving DecidableEq, Repr

/-- `FlagReason.name` of the Python enum member. -/
def FlagReason.pyName : FlagReason → String
  | .NONE => "NONE"
  | .RANGE_CHECK => "RANGE_CHECK"
  | .SPIKE => "SPIKE"
  | .STUCK_SENSOR => "STUCK_SENSOR"
  | .GAP => "GAP"
  | .RAMP_RATE => "RAMP_RATE"
  | .DIRECTION_WRAP => "DIRECTION_WRAP"
  | .MANUAL => "MANUAL"

/-- `FlagReason[name]` lookup; `none` models the KeyError raised on an
unknown name. -/
def FlagReason.ofName : String → Option FlagReason
  | "NONE" => some .NONE
  | "RANGE_CHECK" => some .RANGE_CHECK
  | "SPIKE" => some .SPIKE
  | "STUCK_SENSOR" => some .STUCK_SENSOR
  | "GAP" => some .GAP
  | "RAMP_RATE" => some .RAMP_RATE
  | "DIRECTION_WRAP" => some .DIRECTION_WRAP
  | "MANUAL" => some .MANUAL
  | _ => none

/-- The `Flag` dataclass of models/flags.py.  `timestamp` is `none` when a
check produced the flag without a resolvable time coordinate (the source
passes Python `None` there). -/
structure Flag where
  timestamp : Option ℚ
  variable_name : String
  severity : FlagSeverity
  reason : FlagReason
  check_name : String
  message : String := ""
  auto_generated : Bool := true
deriving DecidableEq, Repr

/-- The plain-dict shape produced by `Flag.to_dict`. -/
structure FlagDict where
  timestamp : ℚ
  variable_name : String
  severity : String
  reason : String
  check_name : String
  message : String
  auto_generated : Bool
deriving DecidableEq, Repr

/-- `Flag.to_dict`.  The source calls `self.timestamp.isoformat()`
unconditionally, which raises AttributeError when the timestamp is `None`;
the raise is modelled by `none`. -/
def Flag.to_dict (f : Flag) : Option FlagDict :=
  match f.timestamp with
  | none => none
  | some t =>
    some
      { timestamp := t
        variable_name := f.variable_name
        severity := f.severity.pyName
        reason := f.reason.pyName
        check_name := f.check_name
        message := f.message
        auto_generated := f.auto_generated }

/-- `Flag.from_dict`.  `none` models the KeyError raised by
`FlagSeverity[...]` / `FlagReason[...]` on an unknown name. -/
def Flag.from_dict (d : FlagDict) : Option Flag :=
  match FlagSeverity.ofName d.severity, FlagReason.ofName d.reason with
  | some sev, some rsn =>
    some
      { timestamp := some d.timestamp
        variable_name := d.variable_name
        severity := sev
        reason := rsn
        check_name := d.check_name
        message := d.message
        auto_generated := d.auto_generated }
  | _, _ => none

/-- The `QCReport` dataclass of models/report.py.  `metadata` is an opaque
string map in this embedding. -/
structure QCReport where
  filepath : String
  created_at : ℚ
  variables_checked : List String := []
  checks_run : List String := []
  flags : List Flag := []
  metadata : List (String × String) := []
deriving DecidableEq, Repr

/-- `QCReport.total_flags`. -/
def QCReport.total_flags (r : QCReport) : Nat :=
  r.flags.length

/-- First-occurrence order of a list's elements, as iteration over a
Python `Counter` of the list yields the keys. -/
def firstOccurrences (l : List String) : List String :=
  l.foldl (fun acc n => if acc.contains n then acc else acc ++ [n]) []

/-- `dict(Counter(names))` for a list of names: keys in first-occurrence
order with their multiplicities. -/
def countsOf (l : List String) : List (String × Nat) :=
  (firstOccurrences l).map (fun n => (n, l.count n))

/-- `QCReport.flags_by_severity`. -/
def QCReport.flags_by_severity (r : QCReport) : List (String × Nat) :=
  countsOf (r.flags.map (fun f => f.severity.pyName))

/-- `QCReport.flags_by_check`. -/
def QCReport.flags_by_check (r : QCReport) : List (String × Nat) :=
  countsOf (r.flags.map (fun f => f.check_name))

/-- `QCReport.add_flag`. -/
def QCReport.add_flag (r : QCReport) (f : Flag) : QCReport :=
  { r with flags := r.flags ++ [f] }

/-- The plain-dict shape produced by `QCReport.to_dict`. -/
structure ReportDict where
  filepath : String
  created_at : ℚ
  variables_checked : List String
  checks_run : List String
  total_flags : Nat
  flags_by_severity : List (String × Nat)
  flags_by_check : List (String × Nat)
  flags : List FlagDict
  metadata : List (String × String)
deriving DecidableEq, Repr

/-- `QCReport.to_dict`; `none` models the exception propagating out of a
failing `Flag.to_dict`. -/
def QCReport.to_dict (r : QCReport) : Option ReportDict :=
  match r.flags.mapM Flag.to_dict with
  | none => none
  | some fds =>
    some
      { filepath := r.filepath
        created_at := r.created_at
        variables_checked := r.variables_checked
        checks_run := r.checks_run
        total_flags := r.total_flags
        flags_by_severity := r.flags_by_severity
        flags_by_check := r.flags_by_check
        flags := fds
        metadata := r.metadata }

/-- `QCReport.from_dict`; `none` models an exception from `Flag.from_dict`. -/
def QCReport.from_dict (d : ReportDict) : Option QCReport :=
  match d.flags.mapM Flag.from_dict with
  | none => none
  | some fs =>
    some
      { filepath := d.filepath
        created_at := d.created_at
        variables_checked := d.variables_checked
        checks_run := d.checks_run
        flags := fs
        metadata := d.metadata }

/-- One variable's data: an `xr.DataArray` as the checks consume it.
`values` is the 1-D sample array (`none` = NaN).  `times` is `some ts` when
the array's leading dimension has a resolvable time coordinate and `none`
otherwise (the `data.dims`/`data.coords` test in each check). -/
structure Series where
  values : List (Option ℚ)
  times : Option (List ℚ)
deriving DecidableEq, Repr

/-- A series is well formed when its time coordinate, if present, is
aligned with the samples. -/
def Series.wf (s : Series) : Bool :=
  match s.times with
  | some ts => ts.length = s.values.length
  | none => true

/-- The per-sample timestamp list every check builds: the coordinate values
when resolvable, else `[None] * len(values)`. -/
def Series.timestamps (s : Series) : List (Option ℚ) :=
  match s.times with
  | some ts => ts.map some
  | none => List.replicate s.values.length none

/-- The two-level configuration mapping: check name, then parameter name.
`none` is an absent key at either level. -/
def Config : Type := String → String → Option ℚ

/-- The empty configuration (`QCEngine()` with no config argument). -/
def emptyConfig : Config := fun _ _ => none

/-- `BaseCheck.get_config_value` with an optional default
(`config.get(name, {}).get(key, default)`). -/
def getConfigValue (config : Config) (name key : String) (default : Option ℚ) :
    Option ℚ :=
  match config name key with
  | some v => some v
  | none => default

/-- `BaseCheck.get_config_value` for a parameter with a scalar default. -/
def getConfigD (config : Config) (name key : String) (default : ℚ) : ℚ :=
  match config name key with
  | some v => v
  | none => default

/-- `BaseCheck.get_config_value` for an integer-valued parameter
(`window_size`, `min_stuck_count`); the source receives a Python int,
modelled as the floor of the stored rational. -/
def getConfigNat (config : Config) (name key : String) (default : Nat) : Nat :=
  match config name key with
  | some v => (Rat.floor v).toNat
  | none => default

/-- `str.lower()` on the ASCII variable names the program uses, written on
the character list so that it evaluates by kernel reduction. -/
def lowerChar (c : Char) : Char :=
  if 65 ≤ c.toNat ∧ c.toNat ≤ 90 then Char.ofNat (c.toNat + 32) else c

/-- `variable.lower()`. -/
def pyLower (s : String) : String :=
  ⟨s.data.map lowerChar⟩

/-- RangeCheck: `DEFAULT_RANGES`, keyed by lower-cased variable name. -/
def RangeCheck.DEFAULT_RANGES : String → Option (ℚ × ℚ) := fun v =>
  if v = "wind_speed" then some (0, 75)
  else if v = "wind_direction" then some (0, 360)
  else if v = "temperature" then some (-60, 60)
  else if v = "pressure" then some (800, 1100)
  else if v = "humidity" then some (0, 100)
  else none

/-- `RangeCheck.name`. -/
def RangeCheck.check_name : String := "range_check"

/-- The body of RangeCheck's per-sample loop: at most one flag per
`(value, timestamp)` pair; the below-minimum branch is tested before the
above-maximum branch (`if`/`elif`). -/
def RangeCheck.flagAt (min_val max_val : Option ℚ) (variable_name : String)
    (p : Option ℚ × Option ℚ) : Option Flag :=
  match p.1 with
  | none => none
  | some val =>
    match min_val with
    | some lo =>
      if val < lo then
        some
          { timestamp := p.2
            variable_name := variable_name
            severity := .BAD
            reason := .RANGE_CHECK
            check_name := RangeCheck.check_name
            message := "Value " ++ toString val ++ " below minimum " ++ toString lo }
      else
        match max_val with
        | some hi =>
          if val > hi then
            some
              { timestamp := p.2
                variable_name := variable_name
                severity := .BAD
                reason := .RANGE_CHECK
                check_name := RangeCheck.check_name
                message := "Value " ++ toString val ++ " above maximum " ++ toString hi }
          else none
        | none => none
    | none =>
      match max_val with
      | some hi =>
        if val > hi then
          some
            { timestamp := p.2
              variable_name := variable_name
              severity := .BAD
              reason := .RANGE_CHECK
              check_name := RangeCheck.check_name
              message := "Value " ++ toString val ++ " above maximum " ++ toString hi }
        else none
      | none => none

/-- `DEFAULT_RANGES.get(var_lower, (None, None))` split into the two
optional bounds. -/
def RangeCheck.default_bounds (variable_name : String) : Option ℚ × Option ℚ :=
  match RangeCheck.DEFAULT_RANGES (pyLower variable_name) with
  | some (a, b) => (some a, some b)
  | none => (none, none)

/-- The minimum bound RangeCheck resolves for a variable. -/
def RangeCheck.resolved_min (config : Config) (variable_name : String) : Option ℚ :=
  getConfigValue config RangeCheck.check_name (variable_name ++ "_min")
    (RangeCheck.default_bounds variable_name).1

/-- The maximum bound RangeCheck resolves for a variable. -/
def RangeCheck.resolved_max (config : Config) (variable_name : String) : Option ℚ :=
  getConfigValue config RangeCheck.check_name (variable_name ++ "_max")
    (RangeCheck.default_bounds variable_name).2

/-- `RangeCheck.run` (qc/checks/range_check.py). -/
def RangeCheck.run (variable_name : String) (data : Series) (config : Config) :
    List Flag :=
  let min_val := RangeCheck.resolved_min config variable_name
  let max_val := RangeCheck.resolved_max config variable_name
  if min_val = none ∧ max_val = none then []
  else
    (data.values.zip data.timestamps).foldl
      (fun flags p => flags ++ (RangeCheck.flagAt min_val max_val variable_name p).toList)
      []

/-- `SpikeCheck.name`. -/
def SpikeCheck.check_name : String := "spike_check"

/-- The comparison `z_score > threshold_multiplier` of SpikeCheck, with
`z_score = |value - mean| / std` and `std = √varc > 0`, rendered exactly on
rationals by comparing squares (for a negative threshold the comparison is
always true since `z_score ≥ 0`). -/
def SpikeCheck.exceeds (threshold dev2 varc : ℚ) : Bool :=
  if threshold < 0 then true else dev2 > threshold ^ 2 * varc

/-- One iteration of SpikeCheck's loop at index `i`: the window of the
`window_size` values preceding `i` with NaNs removed, its mean and its
population variance (`np.std` squared), then the candidate test. -/
def SpikeCheck.flagAt (window_size : Nat) (threshold : ℚ)
    (values times : List (Option ℚ)) (variable_name : String) (i : Nat) :
    Option Flag :=
  let window := ((values.drop (i - window_size)).take window_size).filterMap id
  if window.length < 2 then none
  else
    let mean := window.sum / (window.length : ℚ)
    let varc := (window.map (fun x => (x - mean) ^ 2)).sum / (window.length : ℚ)
    if varc = 0 then none
    else
      match values.getD i none with
      | none => none
      | some next_val =>
        let dev2 := (next_val - mean) ^ 2
        if SpikeCheck.exceeds threshold dev2 varc then
          some
            { timestamp := times.getD i none
              variable_name := variable_name
              severity := .BAD
              reason := .SPIKE
              check_name := SpikeCheck.check_name
              message := "Spike detected: z-score=" ++ toString (dev2 / varc) }
        else none

/-- `SpikeCheck.run` (qc/checks/spike_check.py); the loop runs over
`range(window_size, len(values) - 1)`. -/
def SpikeCheck.run (variable_name : String) (data : Series) (config : Config) :
    List Flag :=
  let window_size := getConfigNat config SpikeCheck.check_name "window_size" 5
  let threshold := getConfigD config SpikeCheck.check_name "threshold_multiplier" 3
  let values := data.values
  if values.length < window_size then []
  else
    (List.range' window_size (values.length - 1 - window_size)).foldl
      (fun flags i =>
        flags ++ (SpikeCheck.flagAt window_size threshold values data.timestamps
          variable_name i).toList)
      []

/-- `StuckSensorCheck.name`. -/
def StuckSensorCheck.check_name : String := "stuck_sensor"

/-- The run-extension test `abs(values[j] - values[i]) < tolerance` of
StuckSensorCheck; false when `values[j]` is NaN, exactly as the NumPy
comparison against NaN is false. -/
def StuckSensorCheck.within (tolerance v : ℚ) (p : Option ℚ × Option ℚ) : Bool :=
  match p.1 with
  | some x => |x - v| < tolerance
  | none => false

theorem length_dropWhile_le {α : Type} (p : α → Bool) (l : List α) :
    (l.dropWhile p).length ≤ l.length := by
  induction l with
  | nil => simp [List.dropWhile]
  | cons a l ih =>
    simp only [List.dropWhile]
    cases p a
    case true => simp; omega
    case false => simp

/-- The flags StuckSensorCheck emits for one detected run: one per member
of the run, each carrying the run length. -/
def StuckSensorCheck.runFlags (variable_name : String) (stuck_count : Nat)
    (members : List (Option ℚ × Option ℚ)) : List Flag :=
  members.map (fun p =>
    { timestamp := p.2
      variable_name := variable_name
      severity := .SUSPECT
      reason := .STUCK_SENSOR
      check_name := StuckSensorCheck.check_name
      message := "Stuck sensor: " ++ toString stuck_count ++ " identical values" })

/-- The `while i < len(values)` scan loop of `StuckSensorCheck.run` over
`(value, timestamp)` pairs: a NaN at the scan position is stepped over;
otherwise the run is extended while the next sample passes `within`, one
flag per member is emitted when the run length reaches `min_stuck_count`,
and the scan resumes right after the run.  The scan position `i` advances
by at least one element per iteration, so the loop runs at most
`len(values)` times; `fuel` carries that bound to make the recursion
structural. -/
def StuckSensorCheck.scanFuel (variable_name : String) (min_stuck_count : Nat)
    (tolerance : ℚ) : Nat → List (Option ℚ × Option ℚ) → List Flag
  | _, [] => []
  | 0, _ :: _ => []
  | fuel + 1, (none, _) :: rest =>
    StuckSensorCheck.scanFuel variable_name min_stuck_count tolerance fuel rest
  | fuel + 1, (some v, t0) :: rest =>
    let runTail := rest.takeWhile (StuckSensorCheck.within tolerance v)
    let stuck_count := runTail.length + 1
    (if min_stuck_count ≤ stuck_count then
      StuckSensorCheck.runFlags variable_name stuck_count ((some v, t0) :: runTail)
     else []) ++
      StuckSensorCheck.scanFuel variable_name min_stuck_count tolerance fuel
        (rest.dropWhile (StuckSensorCheck.within tolerance v))

/-- The scan with exactly enough fuel for the whole list. -/
def StuckSensorCheck.scan (variable_name : String) (min_stuck_count : Nat)
    (tolerance : ℚ) (l : List (Option ℚ × Option ℚ)) : List Flag :=
  StuckSensorCheck.scanFuel variable_name min_stuck_count tolerance l.length l

/-- `StuckSensorCheck.run` (qc/checks/stuck_sensor.py). -/
def StuckSensorCheck.run (variable_name : String) (data : Series)
    (config : Config) : List Flag :=
  let min_stuck_count := getConfigNat config StuckSensorCheck.check_name "min_stuck_count" 6
  let tolerance := getConfigD config StuckSensorCheck.check_name "tolerance" (1 / 1000000)
  if data.values.length < min_stuck_count then []
  else
    StuckSensorCheck.scan variable_name min_stuck_count tolerance
      (data.values.zip data.timestamps)

/-- `GapCheck.name`. -/
def GapCheck.check_name : String := "gap_check"

/-- The MISSING/GAP flag of GapCheck's first pass. -/
def GapCheck.missingFlag (variable_name : String) (t : ℚ) : Flag :=
  { timestamp := some t
    variable_name := variable_name
    severity := .MISSING
    reason := .GAP
    check_name := GapCheck.check_name
    message := "Missing value (NaN)" }

/-- The SUSPECT/GAP flag of GapCheck's second pass, at the later timestamp
of an oversized consecutive time delta. -/
def GapCheck.gapFlag (variable_name : String) (t diff : ℚ) : Flag :=
  { timestamp := some t
    variable_name := variable_name
    severity := .SUSPECT
    reason := .GAP
    check_name := GapCheck.check_name
    message := "Time gap detected: " ++ toString diff }

/-- `np.median` of a list of rationals: middle element of the sorted list,
or the average of the two middle elements for an even length (the source
only evaluates it on the nonempty diff list). -/
def medianQ (l : List ℚ) : ℚ :=
  let s := l.insertionSort (· ≤ ·)
  let n := s.length
  if n = 0 then 0
  else if n % 2 = 1 then s.getD (n / 2) 0
  else (s.getD (n / 2 - 1) 0 + s.getD (n / 2) 0) / 2

/-- `GapCheck.run` (qc/checks/gap_check.py): a series without a resolvable
time coordinate returns no flags at all; otherwise pass 1 flags every NaN
sample and, when at least two samples exist, pass 2 flags every
consecutive-pair time delta above `median * gap_multiplier`. -/
def GapCheck.run (variable_name : String) (data : Series) (config : Config) :
    List Flag :=
  let gap_multiplier := getConfigD config GapCheck.check_name "gap_multiplier" 2
  match data.times with
  | none => []
  | some times =>
    let missing :=
      (data.values.zip times).foldl
        (fun flags p =>
          flags ++
            (match p.1 with
             | none => [GapCheck.missingFlag variable_name p.2]
             | some _ => []))
        []
    if times.length < 2 then missing
    else
      let median_diff := medianQ ((times.zip times.tail).map (fun p => p.2 - p.1))
      missing ++
        (times.zip times.tail).foldl
          (fun flags p =>
            flags ++
              (if p.2 - p.1 > median_diff * gap_multiplier then
                [GapCheck.gapFlag variable_name p.2 (p.2 - p.1)]
               else []))
          []

/-- RampRateCheck: `DEFAULT_RAMP_RATES` (units per second), keyed by
lower-cased variable name. -/
def RampRateCheck.DEFAULT_RAMP_RATES : String → Option ℚ := fun v =>
  if v = "wind_speed" then some (5 / 600)
  else if v = "temperature" then some (5 / 3600)
  else if v = "pressure" then some (10 / 3600)
  else none

/-- `RampRateCheck.name`. -/
def RampRateCheck.check_name : String := "ramp_rate"

/-- One iteration of RampRateCheck's loop on a consecutive pair of
`(value, time)` samples: skip when either value is NaN or the time delta is
zero; otherwise flag when `|Δvalue| / Δseconds` exceeds the limit. -/
def RampRateCheck.flagAt (max_rate : ℚ) (variable_name : String)
    (p : (Option ℚ × ℚ) × (Option ℚ × ℚ)) : Option Flag :=
  match p.1.1, p.2.1 with
  | some prev, some cur =>
    let time_diff := p.2.2 - p.1.2
    if time_diff = 0 then none
    else
      let rate := |cur - prev| / time_diff
      if rate > max_rate then
        some
          { timestamp := some p.2.2
            variable_name := variable_name
            severity := .SUSPECT
            reason := .RAMP_RATE
            check_name := RampRateCheck.check_name
            message := "Excessive ramp rate: " ++ toString rate ++ "/s (max: " ++
              toString max_rate ++ "/s)" }
      else none
  | _, _ => none

/-- `RampRateCheck.run` (qc/checks/ramp_rate.py). -/
def RampRateCheck.run (variable_name : String) (data : Series)
    (config : Config) : List Flag :=
  let default_rate := RampRateCheck.DEFAULT_RAMP_RATES (pyLower variable_name)
  let max_rate := getConfigValue config RampRateCheck.check_name
    (variable_name ++ "_max_rate") default_rate
  match max_rate with
  | none => []
  | some mr =>
    if data.values.length < 2 then []
    else
      match data.times with
      | none => []
      | some times =>
        let pts := data.values.zip times
        (pts.zip pts.tail).foldl
          (fun flags p => flags ++ (RampRateCheck.flagAt mr variable_name p).toList)
          []

/-- `WindDirectionWrapCheck.name`. -/
def WindDirectionWrapCheck.check_name : String := "wind_direction_wrap"

/-- Substring containment, as the Python `in` operator on strings. -/
def strContains (s sub : String) : Bool :=
  (s.splitOn sub).length ≥ 2

/-- `WindDirectionWrapCheck.is_applicable`: the lower-cased variable name
contains "direction" or "dir". -/
def WindDirectionWrapCheck.is_applicable (variable_name : String)
    (_data : Series) : Bool :=
  strContains (pyLower variable_name) "direction" ||
    strContains (pyLower variable_name) "dir"

/-- `WindDirectionWrapCheck._angular_difference`: Python `%` on rationals
(result has the sign of the divisor), then reduction into (-180, 180]. -/
def WindDirectionWrapCheck.angular_difference (angle1 angle2 : ℚ) : ℚ :=
  let x := angle2 - angle1
  let diff := x - 360 * ((Rat.floor (x / 360) : ℤ) : ℚ)
  if diff > 180 then diff - 360 else diff

/-- One iteration of WindDirectionWrapCheck's loop on a consecutive pair. -/
def WindDirectionWrapCheck.flagAt (max_angular_change : ℚ)
    (variable_name : String) (p : (Option ℚ × Option ℚ) × (Option ℚ × Option ℚ)) :
    Option Flag :=
  match p.1.1, p.2.1 with
  | some prev, some cur =>
    let diff := WindDirectionWrapCheck.angular_difference prev cur
    if |diff| > max_angular_change then
      some
        { timestamp := p.2.2
          variable_name := variable_name
          severity := .SUSPECT
          reason := .DIRECTION_WRAP
          check_name := WindDirectionWrapCheck.check_name
          message := "Large direction change: " ++ toString diff ++ " (max: " ++
            toString max_angular_change ++ ")" }
    else none
  | _, _ => none

/-- `WindDirectionWrapCheck.run` (qc/checks/wind_direction_wrap.py). -/
def WindDirectionWrapCheck.run (variable_name : String) (data : Series)
    (config : Config) : List Flag :=
  let max_angular_change := getConfigD config WindDirectionWrapCheck.check_name
    "max_angular_change" 180
  if data.values.length < 2 then []
  else
    let pts := data.values.zip data.timestamps
    (pts.zip pts.tail).foldl
      (fun flags p =>
        flags ++ (WindDirectionWrapCheck.flagAt max_angular_change variable_name p).toList)
      []

/-- The check capability of qc/checks/_base.py: name, description,
applicability gate and the run operation. -/
structure Check where
  name : String
  description : String
  is_applicable : String → Series → Bool
  run : String → Series → Config → List Flag

/-- The `RangeCheck()` instance. -/
def rangeCheck : Check :=
  { name := RangeCheck.check_name
    description := "Validates that values are within physically plausible limits"
    is_applicable := fun _ _ => true
    run := RangeCheck.run }

/-- The `SpikeCheck()` instance. -/
def spikeCheck : Check :=
  { name := SpikeCheck.check_name
    description := "Identifies sudden unrealistic jumps in values"
    is_applicable := fun _ _ => true
    run := SpikeCheck.run }

/-- The `StuckSensorCheck()` instance. -/
def stuckSensorCheck : Check :=
  { name := StuckSensorCheck.check_name
    description := "Identifies sequences of identical values indicating sensor freeze"
    is_applicable := fun _ _ => true
    run := StuckSensorCheck.run }

/-- The `GapCheck()` instance. -/
def gapCheck : Check :=
  { name := GapCheck.check_name
    description := "Identifies missing data and unexpected gaps"
    is_applicable := fun _ _ => true
    run := GapCheck.run }

/-- The `RampRateCheck()` instance. -/
def rampRateCheck : Check :=
  { name := RampRateCheck.check_name
    description := "Flags values with physically implausible rates of change"
    is_applicable := fun _ _ => true
    run := RampRateCheck.run }

/-- The `WindDirectionWrapCheck()` instance. -/
def windDirectionWrapCheck : Check :=
  { name := WindDirectionWrapCheck.check_name
    description := "Validates wind direction continuity using circular statistics"
    is_applicable := WindDirectionWrapCheck.is_applicable
    run := WindDirectionWrapCheck.run }

/-- `CheckRegistry` (qc/registry.py): an insertion-ordered name → check
map, modelled as an association list. -/
structure CheckRegistry where
  checks : List (String × Check)

/-- `CheckRegistry.register`: insert, or overwrite in place as a Python
dict assignment keeps the original insertion position. -/
def CheckRegistry.register (r : CheckRegistry) (c : Check) : CheckRegistry :=
  if r.checks.any (fun p => p.1 = c.name) then
    { checks := r.checks.map (fun p => if p.1 = c.name then (p.1, c) else p) }
  else
    { checks := r.checks ++ [(c.name, c)] }

/-- `CheckRegistry.get_check`. -/
def CheckRegistry.get_check (r : CheckRegistry) (name : String) : Option Check :=
  (r.checks.find? (fun p => p.1 = name)).map Prod.snd

/-- `CheckRegistry.get_checks`: all checks in registration order for
`None`; for a list of names, the matching checks in requested order with
unknown names silently dropped. -/
def CheckRegistry.get_checks (r : CheckRegistry) (names : Option (List String)) :
    List Check :=
  match names with
  | none => r.checks.map Prod.snd
  | some ns => ns.filterMap (fun n => r.get_check n)

/-- A dataset: named variables over one shared time coordinate, plus the
source path stored in its encoding. -/
structure Dataset where
  data_vars : List (String × Series)
  source : String

/-- `dataset[name]` / `name in dataset` lookup. -/
def Dataset.lookup (ds : Dataset) (name : String) : Option Series :=
  (ds.data_vars.find? (fun p => p.1 = name)).map Prod.snd

/-- `list(dataset.data_vars)`. -/
def Dataset.var_names (ds : Dataset) : List String :=
  ds.data_vars.map Prod.fst

/-- `QCEngine` (qc/engine.py): configuration plus a registry. -/
structure QCEngine where
  config : Config
  registry : CheckRegistry

/-- `QCEngine._register_default_checks`: the six built-ins in fixed
order. -/
def defaultRegistry : CheckRegistry :=
  ((((((CheckRegistry.mk []).register rangeCheck).register spikeCheck).register
    stuckSensorCheck).register gapCheck).register rampRateCheck).register
    windDirectionWrapCheck

/-- `QCEngine(config)`. -/
def QCEngine.make (config : Config) : QCEngine :=
  { config := config, registry := defaultRegistry }

/-- `variables or list(dataset.data_vars)`: a Python-falsy argument
(`None` or the empty list) selects every dataset variable. -/
def QCEngine.resolve_variables (ds : Dataset) (variables_arg : Option (List String)) :
    List String :=
  match variables_arg with
  | some vs => if vs.isEmpty then ds.var_names else vs
  | none => ds.var_names

/-- `QCEngine.run` (qc/engine.py).  `now` models `datetime.now()` used for
the report's creation timestamp. -/
def QCEngine.run (e : QCEngine) (now : ℚ) (ds : Dataset)
    (variables_arg checks : Option (List String)) : QCReport :=
  let vars_to_check := QCEngine.resolve_variables ds variables_arg
  let checks_to_run := e.registry.get_checks checks
  let report : QCReport :=
    { filepath := ds.source
      created_at := now
      variables_checked := vars_to_check
      checks_run := checks_to_run.map (fun c => c.name) }
  vars_to_check.foldl
    (fun rep var_name =>
      match ds.lookup var_name with
      | none => rep
      | some data_array =>
        checks_to_run.foldl
          (fun rep2 check =>
            if check.is_applicable var_name data_array then
              (check.run var_name data_array e.config).foldl QCReport.add_flag rep2
            else rep2)
          rep)
    report

/-- The failure modes of `QCEngine.run_single_check`: the explicit
"Unknown check" ValueError, or the KeyError from `dataset[variable]` on an
absent variable. -/
inductive QCError where
  | unknownCheck : String → QCError
  | keyError : String → QCError
deriving DecidableEq, Repr

/-- `QCEngine.run_single_check` (qc/engine.py). -/
def QCEngine.run_single_check (e : QCEngine) (check_name : String)
    (ds : Dataset) (variable_name : String) : Except QCError (List Flag) :=
  match e.registry.get_check check_name with
  | none => .error (.unknownCheck ("Unknown check: " ++ check_name))
  | some check =>
    match ds.lookup variable_name with
    | none => .error (.keyError variable_name)
    | some data => .ok (check.run variable_name data e.config)

/-! Helper lemmas about the loop shapes shared by the checks. -/

theorem foldl_append_flatMap {α β : Type} (g : α → List β) :
    ∀ (l : List α) (init : List β),
      l.foldl (fun acc x => acc ++ g x) init = init ++ l.flatMap g := by
  intro l
  induction l with
  | nil => intro init; simp
  | cons a l ih => intro init; simp only [List.foldl_cons, List.flatMap_cons, ih]; simp

theorem foldl_append_filterMap {α β : Type} (h : α → Option β) :
    ∀ (l : List α) (init : List β),
      l.foldl (fun acc x => acc ++ (h x).toList) init = init ++ l.filterMap h := by
  intro l
  induction l with
  | nil => intro init; simp
  | cons a l ih =>
    intro init
    simp only [List.foldl_cons, List.filterMap_cons, ih]
    cases h a <;> simp

theorem foldl_add_flag_eq : ∀ (fs : List Flag) (r : QCReport),
    fs.foldl QCReport.add_flag r = { r with flags := r.flags ++ fs } := by
  intro fs
  induction fs with
  | nil => intro r; simp
  | cons f fs ih => intro r; simp only [List.foldl_cons, ih, QCReport.add_flag]; simp

theorem foldl_fixed {α β : Type} (f : β → α → β) (hf : ∀ b a, f b a = b) :
    ∀ (l : List α) (b : β), l.foldl f b = b := by
  intro l
  induction l with
  | nil => intro b; rfl
  | cons a l ih => intro b; rw [List.foldl_cons, hf, ih]

theorem length_takeWhile_le {α : Type} (p : α → Bool) (l : List α) :
    (l.takeWhile p).length ≤ l.length :=
  (List.takeWhile_prefix p).length_le

/-! RangeCheck lemmas. -/

theorem RangeCheck.flagAt_isSome_iff (mn mx : Option ℚ) (variable_name : String)
    (p : Option ℚ × Option ℚ) :
    (∃ f, RangeCheck.flagAt mn mx variable_name p = some f) ↔
      (∃ x, p.1 = some x ∧
        ((∃ lo, mn = some lo ∧ x < lo) ∨ (∃ hi, mx = some hi ∧ x > hi))) := by
  rcases p with ⟨pv, pt⟩
  cases pv with
  | none => simp [RangeCheck.flagAt]
  | some x =>
    cases mn with
    | some lo =>
      by_cases hlo : x < lo
      · simp [RangeCheck.flagAt, hlo]
      · cases mx with
        | some hi =>
          by_cases hhi : x > hi
          · simp [RangeCheck.flagAt, hlo, hhi]
          · simp [RangeCheck.flagAt, hlo, hhi]
        | none => simp [RangeCheck.flagAt, hlo]
    | none =>
      cases mx with
      | some hi =>
        by_cases hhi : x > hi
        · simp [RangeCheck.flagAt, hhi]
        · simp [RangeCheck.flagAt, hhi]
      | none => simp [RangeCheck.flagAt]

theorem RangeCheck.flagAt_fields (mn mx : Option ℚ) (variable_name : String)
    (p : Option ℚ × Option ℚ) (f : Flag)
    (h : RangeCheck.flagAt mn mx variable_name p = some f) :
    f.timestamp = p.2 ∧ f.variable_name = variable_name ∧
      f.severity = FlagSeverity.BAD ∧ f.reason = FlagReason.RANGE_CHECK ∧
      f.check_name = RangeCheck.check_name := by
  rcases p with ⟨pv, pt⟩
  cases pv with
  | none => simp [RangeCheck.flagAt] at h
  | some x =>
    cases mn with
    | some lo =>
      by_cases hlo : x < lo
      · simp [RangeCheck.flagAt, hlo] at h
        subst h; exact ⟨rfl, rfl, rfl, rfl, rfl⟩
      · cases mx with
        | some hi =>
          by_cases hhi : x > hi
          · simp [RangeCheck.flagAt, hlo, hhi] at h
            subst h; exact ⟨rfl, rfl, rfl, rfl, rfl⟩
          · simp [RangeCheck.flagAt, hlo, hhi] at h
        | none => simp [RangeCheck.flagAt, hlo] at h
    | none =>
      cases mx with
      | some hi =>
        by_cases hhi : x > hi
        · simp [RangeCheck.flagAt, hhi] at h
          subst h; exact ⟨rfl, rfl, rfl, rfl, rfl⟩
        · simp [RangeCheck.flagAt, hhi] at h
      | none => simp [RangeCheck.flagAt] at h

theorem RangeCheck.flagAt_none_of_no_bounds (variable_name : String)
    (p : Option ℚ × Option ℚ) :
    RangeCheck.flagAt none none variable_name p = none := by
  rcases p with ⟨pv, pt⟩
  cases pv <;> simp [RangeCheck.flagAt]

/-- Claim C7: for every series with resolved inclusive bounds, RangeCheck
emits exactly one BAD/RANGE_CHECK flag, timestamped at the sample, for each
non-NaN sample strictly outside the bounds (the below-minimum branch tried
first, so at most one flag per sample), no flag for NaN or in-bounds
samples, and no flags at all when both bounds resolve to absent. -/
theorem rangeCheck_flags_exact (config : Config) (variable_name : String)
    (data : Series) :
    (RangeCheck.resolved_min config variable_name = none ∧
        RangeCheck.resolved_max config variable_name = none →
      RangeCheck.run variable_name data config = []) ∧
    RangeCheck.run variable_name data config =
      (data.values.zip data.timestamps).filterMap
        (RangeCheck.flagAt (RangeCheck.resolved_min config variable_name)
          (RangeCheck.resolved_max config variable_name) variable_name) ∧
    (∀ p : Option ℚ × Option ℚ,
      (∃ f, RangeCheck.flagAt (RangeCheck.resolved_min config variable_name)
          (RangeCheck.resolved_max config variable_name) variable_name p = some f) ↔
        (∃ x, p.1 = some x ∧
          ((∃ lo, RangeCheck.resolved_min config variable_name = some lo ∧ x < lo) ∨
           (∃ hi, RangeCheck.resolved_max config variable_name = some hi ∧ x > hi)))) ∧
    (∀ (p : Option ℚ × Option ℚ) (f : Flag),
      RangeCheck.flagAt (RangeCheck.resolved_min config variable_name)
          (RangeCheck.resolved_max config variable_name) variable_name p = some f →
        f.timestamp = p.2 ∧ f.severity = FlagSeverity.BAD ∧
          f.reason = FlagReason.RANGE_CHECK ∧
          f.check_name = RangeCheck.check_name) := by
  refine ⟨?_, ?_, ?_, ?_⟩
  · rintro ⟨h1, h2⟩
    simp [RangeCheck.run, h1, h2]
  · by_cases hb : RangeCheck.resolved_min config variable_name = none ∧
        RangeCheck.resolved_max config variable_name = none
    · rcases hb with ⟨h1, h2⟩
      simp only [RangeCheck.run, h1, h2]
      simp [List.filterMap_eq_nil_iff]
      intro a b hab
      exact RangeCheck.flagAt_none_of_no_bounds variable_name (a, b)
    · simp only [RangeCheck.run, if_neg hb]
      exact foldl_append_filterMap _ _ []
  · intro p
    exact RangeCheck.flagAt_isSome_iff _ _ variable_name p
  · intro p f h
    have := RangeCheck.flagAt_fields _ _ variable_name p f h
    exact ⟨this.1, this.2.2.1, this.2.2.2.1, this.2.2.2.2⟩

/-- Witness for `rangeCheck_flags_exact`: the no-bounds conjunct applied to
a variable with neither configured nor default bounds, and the field
conjunct applied to a flag produced by a concrete out-of-range sample. -/
theorem rangeCheck_flags_exact_witness :
    RangeCheck.run "visibility" ⟨[some 100], none⟩ emptyConfig = [] ∧
      RangeCheck.flagAt (RangeCheck.resolved_min emptyConfig "wind_speed")
          (RangeCheck.resolved_max emptyConfig "wind_speed") "wind_speed"
          (some 100, none) =
        some
          { timestamp := none
            variable_name := "wind_speed"
            severity := .BAD
            reason := .RANGE_CHECK
            check_name := RangeCheck.check_name
            message := "Value 100 above maximum 75" } ∧
      ∀ f, RangeCheck.flagAt (RangeCheck.resolved_min emptyConfig "wind_speed")
          (RangeCheck.resolved_max emptyConfig "wind_speed") "wind_speed"
          (some 100, none) = some f →
        f.timestamp = none ∧ f.severity = FlagSeverity.BAD ∧
          f.reason = FlagReason.RANGE_CHECK ∧ f.check_name = RangeCheck.check_name := by
  refine ⟨(rangeCheck_flags_exact emptyConfig "visibility" ⟨[some 100], none⟩).1
    (by with_unfolding_all decide), by with_unfolding_all decide, ?_⟩
  intro f h
  exact (rangeCheck_flags_exact emptyConfig "wind_speed"
    ⟨[some 100], none⟩).2.2.2 (some 100, none) f h

/-! SpikeCheck: claim C5. -/

/-- Claim C5: every flag SpikeCheck emits arises from a candidate index i
with `window_size ≤ i ≤ n - 2` (stated as `i + 2 ≤ n`): the last sample is
never a candidate, nor is any index below the window size. -/
theorem spikeCheck_flag_index_bounds (config : Config) (variable_name : String)
    (data : Series) (f : Flag)
    (hf : f ∈ SpikeCheck.run variable_name data config) :
    ∃ i : Nat,
      getConfigNat config SpikeCheck.check_name "window_size" 5 ≤ i ∧
      i + 2 ≤ data.values.length ∧
      SpikeCheck.flagAt (getConfigNat config SpikeCheck.check_name "window_size" 5)
        (getConfigD config SpikeCheck.check_name "threshold_multiplier" 3)
        data.values data.timestamps variable_name i = some f := by
  by_cases hlen : data.values.length <
      getConfigNat config SpikeCheck.check_name "window_size" 5
  · simp [SpikeCheck.run, hlen] at hf
  · rw [SpikeCheck.run] at hf
    simp only [if_neg hlen] at hf
    rw [foldl_append_filterMap _ _ []] at hf
    simp only [List.nil_append, List.mem_filterMap] at hf
    obtain ⟨i, hmem, hsome⟩ := hf
    rw [List.mem_range'_1] at hmem
    refine ⟨i, hmem.1, ?_, hsome⟩
    have h2 := hmem.2
    omega

/-- Witness series for SpikeCheck: five alternating samples then a spike,
then a final sample. -/
def exSpikeSeries : Series :=
  ⟨[some 0, some 1, some 0, some 1, some 0, some 100, some 0], none⟩

/-- The flag SpikeCheck emits on `exSpikeSeries` with default
configuration. -/
def exSpikeFlag : Flag :=
  { timestamp := none
    variable_name := "wind_speed"
    severity := .BAD
    reason := .SPIKE
    check_name := SpikeCheck.check_name
    message := "Spike detected: z-score=" ++ toString (41334 : ℚ) }

/-- Witness for `spikeCheck_flag_index_bounds` at a concrete flagged
series. -/
theorem spikeCheck_flag_index_bounds_witness :
    ∃ i : Nat,
      getConfigNat emptyConfig SpikeCheck.check_name "window_size" 5 ≤ i ∧
      i + 2 ≤ exSpikeSeries.values.length ∧
      SpikeCheck.flagAt (getConfigNat emptyConfig SpikeCheck.check_name "window_size" 5)
        (getConfigD emptyConfig SpikeCheck.check_name "threshold_multiplier" 3)
        exSpikeSeries.values exSpikeSeries.timestamps "wind_speed" i =
          some exSpikeFlag :=
  spikeCheck_flag_index_bounds emptyConfig "wind_speed" exSpikeSeries exSpikeFlag
    (by with_unfolding_all decide)

/-! WindDirectionWrapCheck: claim C6. -/

theorem WindDirectionWrapCheck.abs_angular_difference_le (a b : ℚ) :
    |WindDirectionWrapCheck.angular_difference a b| ≤ 180 := by
  dsimp only [WindDirectionWrapCheck.angular_difference]
  have hfl : (Rat.floor ((b - a) / 360) : ℤ) = ⌊(b - a) / 360⌋ := rfl
  rw [hfl]
  have h1 : (0 : ℚ) ≤ (b - a) / 360 - ⌊(b - a) / 360⌋ := by
    have := Int.fract_nonneg ((b - a) / 360)
    rwa [Int.fract] at this
  have h2 : (b - a) / 360 - ⌊(b - a) / 360⌋ < 1 := by
    have := Int.fract_lt_one ((b - a) / 360)
    rwa [Int.fract] at this
  have hx : (360 : ℚ) * ((b - a) / 360) = b - a := by field_simp
  have e : b - a - 360 * ((⌊(b - a) / 360⌋ : ℤ) : ℚ) =
      360 * ((b - a) / 360 - ⌊(b - a) / 360⌋) := by
    rw [mul_sub, hx]
  split
  · rw [abs_le]
    constructor <;> nlinarith
  · rw [abs_le]
    constructor <;> nlinarith

/-- Claim C6: with the default threshold `max_angular_change = 180` the
check is inert: for every series of non-NaN angles the computed signed
shortest angular difference lies in (-180, 180], so `|d| > 180` never holds
and `WindDirectionWrapCheck.run` emits no flags. -/
theorem windWrap_default_threshold_no_flags (config : Config)
    (variable_name : String) (data : Series)
    (hdef : getConfigD config WindDirectionWrapCheck.check_name
      "max_angular_change" 180 = 180)
    (_hvals : data.values.all Option.isSome = true) :
    WindDirectionWrapCheck.run variable_name data config = [] := by
  simp only [WindDirectionWrapCheck.run, hdef]
  split
  · rfl
  · rw [foldl_append_filterMap _ _ []]
    simp only [List.nil_append, List.filterMap_eq_nil_iff]
    intro p _
    rcases p with ⟨⟨pv, pt⟩, ⟨qv, qt⟩⟩
    cases pv with
    | none => rfl
    | some prev =>
      cases qv with
      | none => rfl
      | some cur =>
        simp only [WindDirectionWrapCheck.flagAt]
        rw [if_neg]
        exact not_lt.mpr (WindDirectionWrapCheck.abs_angular_difference_le prev cur)

/-- Witness for `windWrap_default_threshold_no_flags`: a wrap-around pair
of angles under the empty configuration. -/
theorem windWrap_default_threshold_no_flags_witness :
    WindDirectionWrapCheck.run "wind_direction" ⟨[some 350, some 10], none⟩
      emptyConfig = [] :=
  windWrap_default_threshold_no_flags emptyConfig "wind_direction"
    ⟨[some 350, some 10], none⟩ (by rfl) (by decide)

/-! RampRateCheck: claim C9. -/

/-- Claim C9: RampRateCheck never divides by a zero time delta: a
consecutive pair with zero delta is skipped without a flag, and every
emitted flag arises from a consecutive pair of non-NaN samples with a
non-zero time delta whose rate `|Δvalue| / Δseconds` strictly exceeds the
resolved `max_rate`. -/
theorem rampRate_no_zero_delta_division (config : Config)
    (variable_name : String) (data : Series) :
    (∀ (mr : ℚ) (p : (Option ℚ × ℚ) × (Option ℚ × ℚ)),
        p.2.2 - p.1.2 = 0 → RampRateCheck.flagAt mr variable_name p = none) ∧
    ∀ f ∈ RampRateCheck.run variable_name data config,
      ∃ mr, getConfigValue config RampRateCheck.check_name
          (variable_name ++ "_max_rate")
          (RampRateCheck.DEFAULT_RAMP_RATES (pyLower variable_name)) = some mr ∧
        ∃ ts, data.times = some ts ∧
          ∃ p ∈ (data.values.zip ts).zip (data.values.zip ts).tail,
            ∃ prev cur, p.1.1 = some prev ∧ p.2.1 = some cur ∧
              p.2.2 - p.1.2 ≠ 0 ∧
              |cur - prev| / (p.2.2 - p.1.2) > mr ∧
              RampRateCheck.flagAt mr variable_name p = some f := by
  constructor
  · intro mr p h
    rcases p with ⟨⟨pv, pt⟩, ⟨qv, qt⟩⟩
    cases pv with
    | none => rfl
    | some prev =>
      cases qv with
      | none => rfl
      | some cur => simp [RampRateCheck.flagAt, h]
  · intro f hf
    rw [RampRateCheck.run] at hf
    cases hmr : getConfigValue config RampRateCheck.check_name
        (variable_name ++ "_max_rate")
        (RampRateCheck.DEFAULT_RAMP_RATES (pyLower variable_name)) with
    | none => rw [hmr] at hf; simp at hf
    | some mr =>
      rw [hmr] at hf
      simp only at hf
      split at hf
      · simp at hf
      · cases hts : data.times with
        | none => rw [hts] at hf; simp at hf
        | some ts =>
          rw [hts] at hf
          simp only at hf
          rw [foldl_append_filterMap _ _ []] at hf
          simp only [List.nil_append, List.mem_filterMap] at hf
          obtain ⟨p, hp, hsome⟩ := hf
          refine ⟨mr, rfl, ts, rfl, p, hp, ?_⟩
          rcases p with ⟨⟨pv, pt⟩, ⟨qv, qt⟩⟩
          cases pv with
          | none => simp [RampRateCheck.flagAt] at hsome
          | some prev =>
            cases qv with
            | none => simp [RampRateCheck.flagAt] at hsome
            | some cur =>
              refine ⟨prev, cur, rfl, rfl, ?_⟩
              by_cases hz : qt - pt = 0
              · simp [RampRateCheck.flagAt, hz] at hsome
              · by_cases hrate : |cur - prev| / (qt - pt) > mr
                · exact ⟨hz, hrate, hsome⟩
                · simp [RampRateCheck.flagAt, hz, hrate] at hsome

/-- Witness series for RampRateCheck: 10 units in 60 seconds. -/
def exRampSeries : Series :=
  ⟨[some 0, some 10], some [0, 60]⟩

/-- The flag RampRateCheck emits on `exRampSeries` for `wind_speed` with
default configuration (limit 5/600 per second). -/
def exRampFlag : Flag :=
  { timestamp := some 60
    variable_name := "wind_speed"
    severity := .SUSPECT
    reason := .RAMP_RATE
    check_name := RampRateCheck.check_name
    message := "Excessive ramp rate: " ++ toString (1 / 6 : ℚ) ++ "/s (max: " ++
      toString (1 / 120 : ℚ) ++ "/s)" }

/-- Witness for `rampRate_no_zero_delta_division`: the zero-delta conjunct
at a concrete pair and the characterization conjunct at a concrete emitted
flag. -/
theorem rampRate_no_zero_delta_division_witness :
    RampRateCheck.flagAt (1 / 120) "wind_speed" ((some 0, 5), (some 10, 5)) = none ∧
      (∃ mr, getConfigValue emptyConfig RampRateCheck.check_name
          ("wind_speed" ++ "_max_rate")
          (RampRateCheck.DEFAULT_RAMP_RATES (pyLower "wind_speed")) = some mr ∧
        ∃ ts, exRampSeries.times = some ts ∧
          ∃ p ∈ (exRampSeries.values.zip ts).zip (exRampSeries.values.zip ts).tail,
            ∃ prev cur, p.1.1 = some prev ∧ p.2.1 = some cur ∧
              p.2.2 - p.1.2 ≠ 0 ∧
              |cur - prev| / (p.2.2 - p.1.2) > mr ∧
              RampRateCheck.flagAt mr "wind_speed" p = some exRampFlag) :=
  ⟨(rampRate_no_zero_delta_division emptyConfig "wind_speed" exRampSeries).1
      (1 / 120) ((some 0, 5), (some 10, 5)) (by with_unfolding_all decide),
   (rampRate_no_zero_delta_division emptyConfig "wind_speed" exRampSeries).2
      exRampFlag (by with_unfolding_all decide)⟩

/-! Engine: claims C8, C10, C1. -/

/-- Claim C8: `run_single_check` fails with an "unknown check" error
exactly when the name is unregistered; for a registered name and a present
variable it returns exactly that check's flag list on the variable's
series under the engine's configuration. -/
theorem run_single_check_spec (e : QCEngine) (check_name : String)
    (ds : Dataset) (variable_name : String) :
    ((∃ msg, e.run_single_check check_name ds variable_name =
        .error (.unknownCheck msg)) ↔
      e.registry.get_check check_name = none) ∧
    ∀ c, e.registry.get_check check_name = some c →
      ∀ s, ds.lookup variable_name = some s →
        e.run_single_check check_name ds variable_name =
          .ok (c.run variable_name s e.config) := by
  constructor
  · constructor
    · rintro ⟨msg, hmsg⟩
      cases hg : e.registry.get_check check_name with
      | none => rfl
      | some c =>
        simp only [QCEngine.run_single_check, hg] at hmsg
        cases hl : ds.lookup variable_name with
        | none => rw [hl] at hmsg; simp at hmsg
        | some s => rw [hl] at hmsg; simp at hmsg
    · intro hg
      exact ⟨"Unknown check: " ++ check_name,
        by simp only [QCEngine.run_single_check, hg]⟩
  · intro c hc s hs
    simp only [QCEngine.run_single_check, hc, hs]

/-- A one-variable dataset used by concrete engine runs. -/
def exDataset : Dataset :=
  { data_vars := [("wind_speed", ⟨[some 100], none⟩)], source := "unknown" }

/-- Witness for `run_single_check_spec`: a registered check name on a
present variable returns that check's flags. -/
theorem run_single_check_spec_witness :
    (QCEngine.make emptyConfig).run_single_check "range_check" exDataset
        "wind_speed" =
      .ok (rangeCheck.run "wind_speed" ⟨[some 100], none⟩
        (QCEngine.make emptyConfig).config) :=
  (run_single_check_spec (QCEngine.make emptyConfig) "range_check" exDataset
    "wind_speed").2 rangeCheck rfl ⟨[some 100], none⟩ rfl

/-- Running with an explicit empty check list builds a report with no
checks and no flags, while the variables loop never changes anything. -/
theorem run_checks_empty (e : QCEngine) (now : ℚ) (ds : Dataset)
    (variables_arg : Option (List String)) :
    e.run now ds variables_arg (some []) =
      { filepath := ds.source
        created_at := now
        variables_checked := QCEngine.resolve_variables ds variables_arg
        checks_run := []
        flags := []
        metadata := [] } := by
  rw [QCEngine.run]
  exact (foldl_fixed _ (fun b a => by cases ds.lookup a <;> rfl) _ _).trans rfl

/-- Claim C10: the two empty-list arguments of `QCEngine.run` behave
asymmetrically: `variables = []` is Python-falsy and selects every dataset
variable exactly as an omitted argument does, while `checks = []` selects
no checks at all, yielding a report with empty `checks_run` and no flags. -/
theorem engine_empty_list_asymmetry (e : QCEngine) (now : ℚ) (ds : Dataset)
    (variables_arg checks : Option (List String)) :
    e.run now ds (some []) checks = e.run now ds none checks ∧
    (e.run now ds variables_arg (some [])).checks_run = [] ∧
    (e.run now ds variables_arg (some [])).flags = [] := by
  refine ⟨rfl, ?_, ?_⟩ <;> rw [run_checks_empty]

/-- The inner loop of `QCEngine.run`: folding the applicable checks over
one variable appends exactly the concatenation of their flag lists. -/
theorem engine_inner_foldl (cfg : Config) (v : String) (s : Series) :
    ∀ (cs : List Check) (rep : QCReport),
      cs.foldl (fun rep2 check =>
        if check.is_applicable v s then
          (check.run v s cfg).foldl QCReport.add_flag rep2
        else rep2) rep =
      { rep with flags := rep.flags ++
          cs.flatMap (fun c => if c.is_applicable v s then c.run v s cfg else []) } := by
  intro cs
  induction cs with
  | nil => intro rep; simp
  | cons c cs ih =>
    intro rep
    simp only [List.foldl_cons, List.flatMap_cons]
    by_cases hc : c.is_applicable v s
    · rw [if_pos hc, if_pos hc, foldl_add_flag_eq, ih]
      simp
    · rw [if_neg hc, if_neg hc, ih]
      simp

/-- The outer loop of `QCEngine.run`: folding the variables appends, in
order, each present variable's concatenation of applicable check flags. -/
theorem engine_outer_foldl (cfg : Config) (ds : Dataset) (cs : List Check) :
    ∀ (vars : List String) (rep : QCReport),
      vars.foldl (fun rep v =>
        match ds.lookup v with
        | none => rep
        | some data_array =>
          cs.foldl (fun rep2 check =>
            if check.is_applicable v data_array then
              (check.run v data_array cfg).foldl QCReport.add_flag rep2
            else rep2) rep) rep =
      { rep with flags := rep.flags ++
          vars.flatMap (fun v =>
            match ds.lookup v with
            | none => []
            | some s =>
              cs.flatMap (fun c =>
                if c.is_applicable v s then c.run v s cfg else [])) } := by
  intro vars
  induction vars with
  | nil => intro rep; simp
  | cons v vars ih =>
    intro rep
    simp only [List.foldl_cons, List.flatMap_cons]
    cases hv : ds.lookup v with
    | none => rw [ih]; simp
    | some s =>
      dsimp only
      rw [engine_inner_foldl, ih]
      simp

/-- Claim C1 (amended): the report's flag list is exactly the concatenation
over the resolved variable list, in order, of the concatenation over the
selected checks, in order, of the flag lists of the checks whose
`is_applicable` holds; an absent variable contributes nothing and raises no
error, and a nonempty requested variables list resolves to itself (an
empty or omitted list resolves to all dataset variables). -/
theorem engine_run_flags (e : QCEngine) (now : ℚ) (ds : Dataset)
    (variables_arg checks : Option (List String)) :
    (e.run now ds variables_arg checks).flags =
      (QCEngine.resolve_variables ds variables_arg).flatMap (fun v =>
        match ds.lookup v with
        | none => []
        | some s =>
          (e.registry.get_checks checks).flatMap (fun c =>
            if c.is_applicable v s then c.run v s e.config else [])) ∧
    ∀ vs, variables_arg = some vs → vs ≠ [] →
      QCEngine.resolve_variables ds variables_arg = vs := by
  constructor
  · rw [QCEngine.run, engine_outer_foldl]
    simp
  · rintro vs rfl hvs
    have hemp : vs.isEmpty = false := by
      cases vs with
      | nil => exact absurd rfl hvs
      | cons a l => rfl
    simp [QCEngine.resolve_variables, hemp]

/-- Witness for `engine_run_flags`: a nonempty requested variables list
resolves to itself. -/
theorem engine_run_flags_witness :
    QCEngine.resolve_variables exDataset (some ["wind_speed"]) = ["wind_speed"] :=
  (engine_run_flags (QCEngine.make emptyConfig) 0 exDataset
    (some ["wind_speed"]) (some ["range_check"])).2 ["wind_speed"] rfl
    (by simp)

/-- Counterexample to claim C1 as stated: requesting the empty variables
list does not yield the empty concatenation over zero requested variables;
the engine checks every dataset variable instead and here emits one flag. -/
theorem engine_run_empty_variables_counterexample :
    ((QCEngine.make emptyConfig).run 0 exDataset (some []) (some ["range_check"])).flags.length = 1 := by
  with_unfolding_all decide

/-! GapCheck: claim C3. -/

theorem flatMap_toList_eq_filterMap {α β : Type} (h : α → Option β) :
    ∀ l : List α, (l.flatMap fun a => (h a).toList) = l.filterMap h := by
  intro l
  induction l with
  | nil => rfl
  | cons a l ih =>
    simp only [List.flatMap_cons, List.filterMap_cons, ih]
    cases h a <;> simp

/-- The option-valued form of GapCheck's first pass over one
`(value, time)` pair. -/
def GapCheck.missingAt (variable_name : String) (p : Option ℚ × ℚ) :
    Option Flag :=
  match p.1 with
  | none => some (GapCheck.missingFlag variable_name p.2)
  | some _ => none

theorem GapCheck.pass1_eq_filterMap (variable_name : String)
    (pairs : List (Option ℚ × ℚ)) :
    pairs.foldl (fun flags p =>
      flags ++
        (match p.1 with
         | none => [GapCheck.missingFlag variable_name p.2]
         | some _ => [])) [] =
    pairs.filterMap (GapCheck.missingAt variable_name) := by
  rw [foldl_append_flatMap _ _ []]
  rw [List.nil_append]
  rw [show (fun p : Option ℚ × ℚ =>
      match p.1 with
      | none => [GapCheck.missingFlag variable_name p.2]
      | some _ => []) =
    (fun p => (GapCheck.missingAt variable_name p).toList) from
      funext fun p => by cases hp : p.1 <;> simp [GapCheck.missingAt, hp]]
  exact flatMap_toList_eq_filterMap _ pairs

theorem GapCheck.filter_missing_of_pass1 (variable_name : String)
    (pairs : List (Option ℚ × ℚ)) :
    (pairs.filterMap (GapCheck.missingAt variable_name)).filter
        (fun f => f.severity = FlagSeverity.MISSING) =
      pairs.filterMap (GapCheck.missingAt variable_name) := by
  rw [List.filter_eq_self]
  intro f hf
  rw [List.mem_filterMap] at hf
  obtain ⟨p, _, hp⟩ := hf
  rcases p with ⟨pv, pt⟩
  cases pv with
  | none =>
    simp only [GapCheck.missingAt] at hp
    obtain rfl := Option.some.inj hp
    rfl
  | some x => simp [GapCheck.missingAt] at hp

theorem GapCheck.filter_missing_of_pass2 (variable_name : String)
    (pairs : List (ℚ × ℚ)) (threshold : ℚ) :
    ((pairs.foldl (fun flags p =>
        flags ++
          (if p.2 - p.1 > threshold then
            [GapCheck.gapFlag variable_name p.2 (p.2 - p.1)]
           else [])) []).filter
      (fun f => f.severity = FlagSeverity.MISSING)) = [] := by
  rw [foldl_append_flatMap _ _ [], List.nil_append, List.filter_eq_nil_iff]
  intro f hf
  rw [List.mem_flatMap] at hf
  obtain ⟨p, _, hfp⟩ := hf
  by_cases hc : p.2 - p.1 > threshold
  · rw [if_pos hc] at hfp
    rw [List.mem_singleton] at hfp
    subst hfp
    simp [GapCheck.gapFlag]
  · rw [if_neg hc] at hfp
    simp at hfp

/-- Claim C3 (amended): on a series whose time coordinate is resolvable,
the MISSING-severity flags of `GapCheck.run` are exactly one MISSING/GAP
flag, with message "Missing value (NaN)" and timestamped at the sample,
per NaN sample in order, regardless of what pass 2 adds (all pass-2 flags
are SUSPECT); a series with no resolvable time coordinate yields no flags
at all, NaN samples included. -/
theorem gapCheck_missing_pass (config : Config) (variable_name : String)
    (values : List (Option ℚ)) (ts : List ℚ)
    (_hlen : ts.length = values.length) :
    (GapCheck.run variable_name ⟨values, some ts⟩ config).filter
        (fun f => f.severity = FlagSeverity.MISSING) =
      (values.zip ts).filterMap (GapCheck.missingAt variable_name) ∧
    GapCheck.run variable_name ⟨values, none⟩ config = [] := by
  constructor
  · simp only [GapCheck.run]
    split
    · rw [GapCheck.pass1_eq_filterMap]
      exact GapCheck.filter_missing_of_pass1 variable_name (values.zip ts)
    · rw [List.filter_append, GapCheck.pass1_eq_filterMap,
        GapCheck.filter_missing_of_pass1, GapCheck.filter_missing_of_pass2,
        List.append_nil]
  · rfl

/-- Witness for `gapCheck_missing_pass`: one NaN amid a two-sample
series. -/
theorem gapCheck_missing_pass_witness :
    (GapCheck.run "temperature" ⟨[some 1, none], some [0, 60]⟩ emptyConfig).filter
        (fun f => f.severity = FlagSeverity.MISSING) =
      (([some 1, none] : List (Option ℚ)).zip ([0, 60] : List ℚ)).filterMap
        (GapCheck.missingAt "temperature") ∧
    GapCheck.run "temperature" ⟨[some 1, none], none⟩ emptyConfig = [] :=
  gapCheck_missing_pass emptyConfig "temperature" [some 1, none] [0, 60] rfl

/-- Counterexample to claim C3 as stated: a series with one NaN sample but
no resolvable time coordinate yields no MISSING/GAP flag at all. -/
theorem gapCheck_no_time_coordinate_counterexample :
    GapCheck.run "temperature" ⟨[none], none⟩ emptyConfig = [] ∧
      ((⟨[none], none⟩ : Series).values.filter (fun v => v = none)).length = 1 := by
  exact ⟨rfl, rfl⟩

/-! StuckSensorCheck: claim C2. -/

theorem StuckSensorCheck.scanFuel_nil (variable_name : String) (m : Nat)
    (tol : ℚ) : ∀ n, StuckSensorCheck.scanFuel variable_name m tol n [] = [] := by
  intro n
  cases n <;> rfl

theorem StuckSensorCheck.scanFuel_congr (variable_name : String) (m : Nat)
    (tol : ℚ) :
    ∀ (n1 : Nat) (n2 : Nat) (l : List (Option ℚ × Option ℚ)),
      l.length ≤ n1 → l.length ≤ n2 →
      StuckSensorCheck.scanFuel variable_name m tol n1 l =
        StuckSensorCheck.scanFuel variable_name m tol n2 l := by
  intro n1
  induction n1 with
  | zero =>
    intro n2 l h1 h2
    rw [List.length_eq_zero.mp (Nat.le_zero.mp h1)]
    rw [StuckSensorCheck.scanFuel_nil, StuckSensorCheck.scanFuel_nil]
  | succ n1 ih =>
    intro n2 l h1 h2
    cases l with
    | nil => rw [StuckSensorCheck.scanFuel_nil, StuckSensorCheck.scanFuel_nil]
    | cons p rest =>
      cases n2 with
      | zero => simp at h2
      | succ m2 =>
        rcases p with ⟨pv, pt⟩
        cases pv with
        | none =>
          simp only [StuckSensorCheck.scanFuel]
          exact ih m2 rest (by simp at h1; omega) (by simp at h2; omega)
        | some v0 =>
          simp only [StuckSensorCheck.scanFuel]
          congr 1
          refine ih m2 (rest.dropWhile (StuckSensorCheck.within tol v0)) ?_ ?_
          · have := length_dropWhile_le (StuckSensorCheck.within tol v0) rest
            simp at h1; omega
          · have := length_dropWhile_le (StuckSensorCheck.within tol v0) rest
            simp at h2; omega

theorem StuckSensorCheck.scan_nil (variable_name : String) (m : Nat) (tol : ℚ) :
    StuckSensorCheck.scan variable_name m tol [] = [] := rfl

theorem StuckSensorCheck.scan_cons_none (variable_name : String) (m : Nat)
    (tol : ℚ) (t : Option ℚ) (rest : List (Option ℚ × Option ℚ)) :
    StuckSensorCheck.scan variable_name m tol ((none, t) :: rest) =
      StuckSensorCheck.scan variable_name m tol rest := rfl

theorem StuckSensorCheck.scan_cons_some (variable_name : String) (m : Nat)
    (tol : ℚ) (v0 : ℚ) (t0 : Option ℚ) (rest : List (Option ℚ × Option ℚ)) :
    StuckSensorCheck.scan variable_name m tol ((some v0, t0) :: rest) =
      (if m ≤ (rest.takeWhile (StuckSensorCheck.within tol v0)).length + 1 then
        StuckSensorCheck.runFlags variable_name
          ((rest.takeWhile (StuckSensorCheck.within tol v0)).length + 1)
          ((some v0, t0) :: rest.takeWhile (StuckSensorCheck.within tol v0))
       else []) ++
        StuckSensorCheck.scan variable_name m tol
          (rest.dropWhile (StuckSensorCheck.within tol v0)) := by
  simp only [StuckSensorCheck.scan, List.length_cons, StuckSensorCheck.scanFuel]
  congr 1
  exact StuckSensorCheck.scanFuel_congr variable_name m tol rest.length _ _
    (length_dropWhile_le _ rest) le_rfl

theorem StuckSensorCheck.scan_short (variable_name : String) (m : Nat)
    (tol : ℚ) :
    ∀ (n : Nat) (l : List (Option ℚ × Option ℚ)), l.length ≤ n → l.length < m →
      StuckSensorCheck.scan variable_name m tol l = [] := by
  intro n
  induction n with
  | zero =>
    intro l h1 _
    rw [List.length_eq_zero.mp (Nat.le_zero.mp h1)]
    rfl
  | succ n ih =>
    intro l h1 h2
    cases l with
    | nil => rfl
    | cons p rest =>
      rcases p with ⟨pv, pt⟩
      cases pv with
      | none =>
        rw [StuckSensorCheck.scan_cons_none]
        exact ih rest (by simp at h1; omega) (by simp at h2; omega)
      | some v0 =>
        rw [StuckSensorCheck.scan_cons_some]
        rw [if_neg, List.nil_append]
        · refine ih (rest.dropWhile (StuckSensorCheck.within tol v0)) ?_ ?_
          · have := length_dropWhile_le (StuckSensorCheck.within tol v0) rest
            simp at h1; omega
          · have := length_dropWhile_le (StuckSensorCheck.within tol v0) rest
            simp at h2; omega
        · have := length_takeWhile_le (StuckSensorCheck.within tol v0) rest
          simp at h2; omega

theorem StuckSensorCheck.scan_append_nan (variable_name : String) (m : Nat)
    (tol : ℚ) :
    ∀ (n : Nat) (as : List (Option ℚ × Option ℚ)), as.length ≤ n →
      ∀ (t : Option ℚ) (bs : List (Option ℚ × Option ℚ)),
        StuckSensorCheck.scan variable_name m tol (as ++ (none, t) :: bs) =
          StuckSensorCheck.scan variable_name m tol as ++
            StuckSensorCheck.scan variable_name m tol bs := by
  intro n
  induction n with
  | zero =>
    intro as h1 t bs
    rw [List.length_eq_zero.mp (Nat.le_zero.mp h1)]
    rw [List.nil_append, StuckSensorCheck.scan_cons_none, StuckSensorCheck.scan_nil,
      List.nil_append]
  | succ n ih =>
    intro as h1 t bs
    cases as with
    | nil =>
      rw [List.nil_append, StuckSensorCheck.scan_cons_none, StuckSensorCheck.scan_nil,
        List.nil_append]
    | cons p as1 =>
      rcases p with ⟨pv, pt⟩
      cases pv with
      | none =>
        rw [List.cons_append, StuckSensorCheck.scan_cons_none,
          StuckSensorCheck.scan_cons_none]
        exact ih as1 (by simp at h1; omega) t bs
      | some v0 =>
        rw [List.cons_append, StuckSensorCheck.scan_cons_some,
          StuckSensorCheck.scan_cons_some]
        have hw : StuckSensorCheck.within tol v0 (none, t) = false := rfl
        have htake : (as1 ++ (none, t) :: bs).takeWhile
            (StuckSensorCheck.within tol v0) =
            as1.takeWhile (StuckSensorCheck.within tol v0) := by
          rw [List.takeWhile_append]
          split
          · rename_i h
            rw [List.takeWhile_cons, hw]
            simp only [Bool.false_eq_true, if_false, List.append_nil]
            exact ((List.takeWhile_prefix _).eq_of_length h).symm
          · rfl
        have hdrop : (as1 ++ (none, t) :: bs).dropWhile
            (StuckSensorCheck.within tol v0) =
            as1.dropWhile (StuckSensorCheck.within tol v0) ++ (none, t) :: bs := by
          rw [List.dropWhile_append]
          split
          · rename_i h
            rw [List.isEmpty_iff.mp h, List.nil_append]
            rw [List.dropWhile_cons, hw]
            simp
          · rfl
        rw [htake, hdrop]
        rw [ih (as1.dropWhile (StuckSensorCheck.within tol v0))
          (by have := length_dropWhile_le (StuckSensorCheck.within tol v0) as1
              simp at h1; omega) t bs]
        rw [List.append_assoc]

theorem zip_replicate_none :
    ∀ l : List (Option ℚ),
      l.zip (List.replicate l.length (none : Option ℚ)) =
        l.map (fun v => (v, none)) := by
  intro l
  induction l with
  | nil => rfl
  | cons a l ih => simp only [List.length_cons, List.replicate_succ, List.zip_cons_cons,
      List.map_cons, ih]

/-- Claim C2 (amended): a NaN sample terminates a run rather than being
skipped inside it: the run-extension test `|values[j] - values[i]| <
tolerance` is false at a NaN, so near-equal samples resuming after an
interleaved NaN start a new run, and the check on a series split by a NaN
equals the concatenation of the check on the two halves; a group of
near-equal samples interrupted by a NaN is therefore flagged only if one
NaN-free side alone reaches `min_stuck_count`. -/
theorem stuckSensor_nan_breaks_runs (config : Config) (variable_name : String)
    (xs ys : List (Option ℚ)) :
    StuckSensorCheck.run variable_name ⟨xs ++ none :: ys, none⟩ config =
      StuckSensorCheck.run variable_name ⟨xs, none⟩ config ++
        StuckSensorCheck.run variable_name ⟨ys, none⟩ config := by
  simp only [StuckSensorCheck.run, Series.timestamps]
  rw [zip_replicate_none, zip_replicate_none, zip_replicate_none]
  by_cases h1 : (xs ++ none :: ys).length <
      getConfigNat config StuckSensorCheck.check_name "min_stuck_count" 6
  · rw [if_pos h1, if_pos (by simp at h1 ⊢; omega), if_pos (by simp at h1 ⊢; omega)]
    rfl
  · rw [if_neg h1, List.map_append, List.map_cons]
    rw [StuckSensorCheck.scan_append_nan variable_name _ _
      (xs.map (fun v => (v, none))).length _ le_rfl]
    have hx : (if xs.length < getConfigNat config StuckSensorCheck.check_name
          "min_stuck_count" 6 then ([] : List Flag)
        else StuckSensorCheck.scan variable_name
          (getConfigNat config StuckSensorCheck.check_name "min_stuck_count" 6)
          (getConfigD config StuckSensorCheck.check_name "tolerance" (1 / 1000000))
          (xs.map (fun v => (v, none)))) =
        StuckSensorCheck.scan variable_name
          (getConfigNat config StuckSensorCheck.check_name "min_stuck_count" 6)
          (getConfigD config StuckSensorCheck.check_name "tolerance" (1 / 1000000))
          (xs.map (fun v => (v, none))) := by
      split
      · rename_i h
        exact (StuckSensorCheck.scan_short variable_name _ _
          (xs.map (fun v => (v, none))).length _ le_rfl (by simpa using h)).symm
      · rfl
    have hy : (if ys.length < getConfigNat config StuckSensorCheck.check_name
          "min_stuck_count" 6 then ([] : List Flag)
        else StuckSensorCheck.scan variable_name
          (getConfigNat config StuckSensorCheck.check_name "min_stuck_count" 6)
          (getConfigD config StuckSensorCheck.check_name "tolerance" (1 / 1000000))
          (ys.map (fun v => (v, none)))) =
        StuckSensorCheck.scan variable_name
          (getConfigNat config StuckSensorCheck.check_name "min_stuck_count" 6)
          (getConfigD config StuckSensorCheck.check_name "tolerance" (1 / 1000000))
          (ys.map (fun v => (v, none))) := by
      split
      · rename_i h
        exact (StuckSensorCheck.scan_short variable_name _ _
          (ys.map (fun v => (v, none))).length _ le_rfl (by simpa using h)).symm
      · rfl
    rw [hx, hy]

/-- Witness series for the stuck-sensor counterexample: six values within
tolerance of 5, split 3 + 3 by one NaN. -/
def exStuckSeries : Series :=
  ⟨[some 5, some 5, some 5, none, some 5, some 5, some 5], none⟩

/-- Counterexample to claim C2 as stated: the series holds six non-NaN
samples, all within the default tolerance of the first, yet with the
default `min_stuck_count = 6` the check flags nothing, because the NaN
breaks the run into two runs of three. -/
theorem stuckSensor_nan_counterexample :
    StuckSensorCheck.run "wind_speed" exStuckSeries emptyConfig = [] ∧
      (exStuckSeries.values.filterMap id).length = 6 ∧
      (exStuckSeries.values.filterMap id).all
        (fun x => |x - 5| < 1 / 1000000) = true := by
  with_unfolding_all decide

/-! Report serialization: claim C4. -/

/-- Claim C4, code bug at the absent-timestamp case: running the engine on
a dataset whose series has no resolvable time coordinate produces a report
whose single flag carries no timestamp (the checks pass `None` there), and
serializing that very report fails — `Flag.to_dict` calls
`self.timestamp.isoformat()` on `None` — so `from_dict(to_dict(report))`
cannot reproduce the absent/null timestamp case the claim requires. -/
theorem report_to_dict_fails_on_null_timestamp :
    QCReport.to_dict
        ((QCEngine.make emptyConfig).run 0 exDataset none (some ["range_check"])) =
      none ∧
    ((QCEngine.make emptyConfig).run 0 exDataset none
        (some ["range_check"])).flags.map (fun f => f.timestamp) = [none] := by
  with_unfolding_all decide

end Windcdf
